import Mathlib

/-!
# pod-tracker: event-to-record reconciliation

A shallow embedding of `main.go`: the `Pod` row, the classifier `eventToPod`,
the kind filter `filterPodOnly`, the merge used by `eventAdd`
(`mergo.Merge` with `timeTransformer`) and the handler `eventAdd` itself,
running against a model of the `pod` table reached through gorm.

The table is a list of rows in insertion order.  The three gorm calls the
handler makes (`First`, `Create`, `Save`) are modelled on the SQL they issue
against a table whose primary key is the `uid` column.  A row holds its time
columns as they were written; `First` reads them as the sqlite driver parses
them (`scanRow`).  The handler is also given as its read followed by its
write (`readStep`, `writeStep`), to follow two calls whose steps interleave.
-/

namespace PodTracker

/-- A `time.Time`, as the instant it denotes, counted in whole seconds from
Go's zero time (January 1, year 1, 00:00:00 UTC).  The zero value of
`time.Time` is `0`. -/
abbrev Time := Int

/-- The method `time.Time.IsZero`: the instant is the zero time. -/
def Time.IsZero (t : Time) : Bool := t == 0

/-- The struct `Pod` of `main.go`: one row of table `pod`, primary key `UID`. -/
structure Pod where
  UID : String
  Namespace : String
  Name : String
  Scheduled : Time
  AllocIPSucceed : Time
  Pulling : Time
  Pulled : Time
  Created : Time
  Started : Time
  Killing : Time
deriving DecidableEq, Repr

/-- The fields of `corev1.ObjectReference` that the program reads. -/
structure ObjectReference where
  Kind : String
  Namespace : String
  Name : String
  UID : String
deriving DecidableEq, Repr

/-- The fields of `corev1.Event` that the program reads.  `CreationTimestamp`
stands for `e.CreationTimestamp.Time`. -/
structure Event where
  InvolvedObject : ObjectReference
  Reason : String
  CreationTimestamp : Time
deriving DecidableEq, Repr

/-- The `interface{}` value an informer callback receives: a `*corev1.Event`,
or a value of any other dynamic type. -/
inductive Obj where
  | event (e : Event)
  | other
deriving DecidableEq, Repr

/-- The seven `time.Time` columns of `Pod`, used to index them in statements. -/
inductive Milestone where
  | Scheduled
  | AllocIPSucceed
  | Pulling
  | Pulled
  | Created
  | Started
  | Killing
deriving DecidableEq, Repr

/-- The reason string that `eventToPod` maps to each column. -/
def Milestone.reason : Milestone → String
  | .Scheduled => "Scheduled"
  | .AllocIPSucceed => "AllocIPSucceed"
  | .Pulling => "Pulling"
  | .Pulled => "Pulled"
  | .Created => "Created"
  | .Started => "Started"
  | .Killing => "Killing"

/-- Read one of the seven time columns of a row. -/
def Pod.milestone (p : Pod) : Milestone → Time
  | .Scheduled => p.Scheduled
  | .AllocIPSucceed => p.AllocIPSucceed
  | .Pulling => p.Pulling
  | .Pulled => p.Pulled
  | .Created => p.Created
  | .Started => p.Started
  | .Killing => p.Killing

/-- The function `filterPodOnly`: true exactly for a `*corev1.Event` whose
involved object has kind `"Pod"`. -/
def filterPodOnly (obj : Obj) : Bool :=
  match obj with
  | .other => false
  | .event e => if e.InvolvedObject.Kind = "Pod" then true else false

/-- The function `eventToPod`: the switch on `e.Reason`, `none` for Go's `nil`. -/
def eventToPod (e : Event) : Option Pod :=
  let p : Pod :=
    { UID := e.InvolvedObject.UID
      Namespace := e.InvolvedObject.Namespace
      Name := e.InvolvedObject.Name
      Scheduled := 0, AllocIPSucceed := 0, Pulling := 0, Pulled := 0
      Created := 0, Started := 0, Killing := 0 }
  let firstOccured := e.CreationTimestamp
  if e.Reason = "Scheduled" then some { p with Scheduled := firstOccured }
  else if e.Reason = "AllocIPSucceed" then some { p with AllocIPSucceed := firstOccured }
  else if e.Reason = "Pulling" then some { p with Pulling := firstOccured }
  else if e.Reason = "Pulled" then some { p with Pulled := firstOccured }
  else if e.Reason = "Created" then some { p with Created := firstOccured }
  else if e.Reason = "Started" then some { p with Started := firstOccured }
  else if e.Reason = "Killing" then some { p with Killing := firstOccured }
  else none

/-- The closure returned by `timeTransformer.Transformer` for `time.Time`:
the destination (always settable here) takes the source when it is zero. -/
def timeTransformer (dst src : Time) : Time :=
  if dst.IsZero then src else dst

/-- The default case of mergo's `deepMerge` on a string field without
`WithOverride`: an empty destination takes a non-empty source. -/
def mergeString (dst src : String) : String :=
  if dst = "" ∧ src ≠ "" then src else dst

/-- The call `mergo.Merge(&oldPod, p, mergo.WithTransformers(timeTransformer{}))`:
field by field over the struct, the transformer on the `time.Time` fields.
Both arguments are non-nil pointers to the same struct type, so the call
returns no error. -/
def mergoMerge (dst src : Pod) : Pod :=
  { UID := mergeString dst.UID src.UID
    Namespace := mergeString dst.Namespace src.Namespace
    Name := mergeString dst.Name src.Name
    Scheduled := timeTransformer dst.Scheduled src.Scheduled
    AllocIPSucceed := timeTransformer dst.AllocIPSucceed src.AllocIPSucceed
    Pulling := timeTransformer dst.Pulling src.Pulling
    Pulled := timeTransformer dst.Pulled src.Pulled
    Created := timeTransformer dst.Created src.Created
    Started := timeTransformer dst.Started src.Started
    Killing := timeTransformer dst.Killing src.Killing }

/-- The rows of table `pod`, in insertion order. -/
abbrev DB := List Pod

/-- Which storage calls of one `eventAdd` run fail: `first` makes `db.First`
return an error other than `gorm.ErrRecordNotFound`, `create` and `save` make
`db.Create` and `db.Save` fail without writing. -/
structure Faults where
  first : Bool
  create : Bool
  save : Bool
deriving DecidableEq, Repr

/-- A run in which every storage call is executed by the database. -/
def Faults.none : Faults := { first := false, create := false, save := false }

/-- The stored record of a UID: the row whose primary key is `uid`. -/
def DB.lookup (db : DB) (uid : String) : Option Pod :=
  db.find? (fun r => r.UID == uid)

/-- The row with the least `uid`: the answer to
`SELECT * FROM pod ORDER BY uid LIMIT 1`. -/
def DB.leastByUID : DB → Option Pod
  | [] => Option.none
  | r :: rs =>
    match DB.leastByUID rs with
    | Option.none => some r
    | some m => if m.UID < r.UID then some m else some r

/-- Whether the text that the sqlite driver wrote for a time parses back when
the column is read.  The driver writes a time with a layout that has a
four-digit year and reads it with the same layouts, so only the instants of
the years 0 to 9999 (rendered in UTC) parse: year 0 starts 366 days before the
zero time, year 10000 starts 3652059 days after it. -/
def Time.parses (t : Time) : Bool :=
  decide (-31622400 ≤ t ∧ t < 315537897600)

/-- Reading one time column: the driver returns the zero time for a text that
does not parse. -/
def scanTime (t : Time) : Time :=
  if t.parses then t else 0

/-- Scanning a selected row into the destination struct.  The strings come
back as stored, each time column through `scanTime`. -/
def scanRow (r : Pod) : Pod :=
  { UID := r.UID
    Namespace := r.Namespace
    Name := r.Name
    Scheduled := scanTime r.Scheduled
    AllocIPSucceed := scanTime r.AllocIPSucceed
    Pulling := scanTime r.Pulling
    Pulled := scanTime r.Pulled
    Created := scanTime r.Created
    Started := scanTime r.Started
    Killing := scanTime r.Killing }

/-- The outcome of `db.First(&oldPod)`. -/
inductive FirstResult where
  | found (row : Pod)
  | notFound
  | failed
deriving DecidableEq, Repr

/-- The call `db.First(&oldPod)`.  gorm adds `WHERE uid = ?` only when the
primary key of the destination is non-zero; with an empty `UID` the query is
`SELECT * FROM pod ORDER BY uid LIMIT 1`.  A found row is scanned into the
destination, all columns, as `scanRow` reads them. -/
def dbFirst (fl : Faults) (db : DB) (dest : Pod) : FirstResult :=
  if fl.first then .failed
  else
    match (if dest.UID = "" then db.leastByUID else db.lookup dest.UID) with
    | some row => .found (scanRow row)
    | Option.none => .notFound

/-- The statement `INSERT INTO pod`: refused by the primary key when a row
with that `uid` exists, and then nothing is written. -/
def insertRow (db : DB) (v : Pod) : DB :=
  if db.any (fun r => r.UID == v.UID) then db else db ++ [v]

/-- The call `db.Create(p)`: one `INSERT INTO pod`. -/
def dbCreate (fl : Faults) (db : DB) (v : Pod) : DB :=
  if fl.create then db else insertRow db v

/-- The call `db.Save(&oldPod)`.  gorm executes the insert of `Create` when
the primary key is zero; otherwise `UPDATE pod SET` all columns
`WHERE uid = ?`, and an insert when no row was affected. -/
def dbSave (fl : Faults) (db : DB) (v : Pod) : DB :=
  if fl.save then db
  else if v.UID = "" then insertRow db v
  else if db.any (fun r => r.UID == v.UID) then
    db.map (fun r => if r.UID = v.UID then v else r)
  else db ++ [v]

/-- The function `eventAdd`, as a transition of the table.  Only
`gorm.ErrRecordNotFound` leads to `db.Create`; after any other outcome of
`db.First`, a failure included (`oldPod` is then still `Pod{UID: p.UID}`), the
code merges into `oldPod` and saves it. -/
def eventAdd (fl : Faults) (db : DB) (obj : Obj) : DB :=
  match obj with
  | .other => db
  | .event e =>
    match eventToPod e with
    | Option.none => db
    | some p =>
      let oldPod : Pod :=
        { UID := p.UID, Namespace := "", Name := ""
          Scheduled := 0, AllocIPSucceed := 0, Pulling := 0, Pulled := 0
          Created := 0, Started := 0, Killing := 0 }
      match dbFirst fl db oldPod with
      | .notFound => dbCreate fl db p
      | .found row => dbSave fl db (mergoMerge row p)
      | .failed => dbSave fl db (mergoMerge oldPod p)

/-- What a call of `eventAdd` holds once `db.First` has answered and the merge
was done in memory: the write it goes on to make. -/
inductive Pending where
  | nothing
  | create (p : Pod)
  | save (v : Pod)
deriving DecidableEq, Repr

/-- The first part of `eventAdd`, up to the write: the type assertion,
`eventToPod`, `db.First` and, unless no record was found, `mergo.Merge`.  The
table is only read. -/
def readStep (fl : Faults) (db : DB) (obj : Obj) : Pending :=
  match obj with
  | .other => .nothing
  | .event e =>
    match eventToPod e with
    | Option.none => .nothing
    | some p =>
      let oldPod : Pod :=
        { UID := p.UID, Namespace := "", Name := ""
          Scheduled := 0, AllocIPSucceed := 0, Pulling := 0, Pulled := 0
          Created := 0, Started := 0, Killing := 0 }
      match dbFirst fl db oldPod with
      | .notFound => .create p
      | .found row => .save (mergoMerge row p)
      | .failed => .save (mergoMerge oldPod p)

/-- The second part of `eventAdd`: the one write, `db.Create(p)` or
`db.Save(&oldPod)`, against the table as it is when the write runs. -/
def writeStep (fl : Faults) (db : DB) (pd : Pending) : DB :=
  match pd with
  | .nothing => db
  | .create p => dbCreate fl db p
  | .save v => dbSave fl db v

/-- One call of `eventAdd` in flight: its argument, what it holds after its
`db.First` (nothing before), and whether its write was made. -/
structure Call where
  obj : Obj
  held : Option Pending
  finished : Bool
deriving DecidableEq, Repr

/-- A call that has not started. -/
def Call.start (obj : Obj) : Call :=
  { obj := obj, held := Option.none, finished := false }

/-- Let a call make its next step against the table: first the read, then the
write; a finished call does nothing. -/
def Call.advance (fl : Faults) (db : DB) (c : Call) : DB × Call :=
  if c.finished then (db, c)
  else
    match c.held with
    | Option.none => (db, { c with held := some (readStep fl db c.obj) })
    | some pd => (writeStep fl db pd, { c with finished := true })

/-- Two calls of `eventAdd` against one table, their steps taken in the order
of the schedule: `false` lets the first call make its next step, `true` the
second. -/
def interleave (fl : Faults) (db : DB) (a b : Call) : List Bool → DB
  | [] => db
  | false :: rest =>
    interleave fl (Call.advance fl db a).1 (Call.advance fl db a).2 b rest
  | true :: rest =>
    interleave fl (Call.advance fl db b).1 a (Call.advance fl db b).2 rest

/-- The handler registered by `watchPodEvents`: a
`cache.FilteringResourceEventHandler` whose `OnAdd` calls `eventAdd` only when
`filterPodOnly` returned true. -/
def watchPodEvents (fl : Faults) (db : DB) (obj : Obj) : DB :=
  if filterPodOnly obj then eventAdd fl db obj else db

/-- Handle a list of notifications in order. -/
def eventAddAll (fl : Faults) (db : DB) (objs : List Obj) : DB :=
  objs.foldl (eventAdd fl) db

/-- An event about a Pod, built from the fields the program reads. -/
def podEvent (uid ns name reason : String) (t : Time) : Event :=
  { InvolvedObject := { Kind := "Pod", Namespace := ns, Name := name, UID := uid }
    Reason := reason
    CreationTimestamp := t }

/-- The seven reason strings of the switch in `eventToPod`. -/
def knownReasons : List String :=
  ["Scheduled", "AllocIPSucceed", "Pulling", "Pulled", "Created", "Started", "Killing"]

/-! ## The merge, field by field -/

theorem mergeString_self (a : String) : mergeString a a = a := by
  unfold mergeString; split <;> simp_all

theorem mergeString_of_ne (a b : String) (h : a ≠ "") : mergeString a b = a := by
  unfold mergeString; simp [h]

theorem mergeString_empty_right (a : String) : mergeString a "" = a := by
  unfold mergeString; simp

theorem mergeString_empty_left (b : String) : mergeString "" b = b := by
  unfold mergeString; split <;> simp_all

theorem mergeString_idem (a b : String) :
    mergeString (mergeString a b) b = mergeString a b := by
  by_cases h : a = "" ∧ b ≠ ""
  · have : mergeString a b = b := by unfold mergeString; simp [h]
    rw [this, mergeString_self]
  · have : mergeString a b = a := by unfold mergeString; simp [h]
    rw [this, this]

theorem timeTransformer_self (a : Time) : timeTransformer a a = a := by
  unfold timeTransformer; split <;> rfl

theorem timeTransformer_of_ne (a b : Time) (h : a ≠ 0) : timeTransformer a b = a := by
  unfold timeTransformer Time.IsZero; simp [h]

theorem timeTransformer_zero_left (b : Time) : timeTransformer 0 b = b := by
  unfold timeTransformer Time.IsZero; simp

theorem timeTransformer_zero_right (a : Time) : timeTransformer a 0 = a := by
  unfold timeTransformer Time.IsZero
  by_cases h : a = 0 <;> simp [h]

theorem timeTransformer_idem (a b : Time) :
    timeTransformer (timeTransformer a b) b = timeTransformer a b := by
  by_cases h : a = 0
  · subst h; rw [timeTransformer_zero_left, timeTransformer_self]
  · rw [timeTransformer_of_ne a b h, timeTransformer_of_ne a b h]

theorem mergoMerge_self (p : Pod) : mergoMerge p p = p := by
  cases p; simp [mergoMerge, mergeString_self, timeTransformer_self]

theorem mergoMerge_idem (r p : Pod) :
    mergoMerge (mergoMerge r p) p = mergoMerge r p := by
  simp [mergoMerge, mergeString_idem, timeTransformer_idem]

theorem mergoMerge_UID_of_eq (r p : Pod) (h : r.UID = p.UID) :
    (mergoMerge r p).UID = r.UID := by
  simp only [mergoMerge]; rw [← h, mergeString_self]

theorem mergoMerge_UID_of_empty (r p : Pod) (h : p.UID = "") :
    (mergoMerge r p).UID = r.UID := by
  simp only [mergoMerge]; rw [h, mergeString_empty_right]

/-- A time column of the merged row: the old value unless it was zero. -/
theorem mergoMerge_milestone (r p : Pod) (k : Milestone) :
    (mergoMerge r p).milestone k = timeTransformer (r.milestone k) (p.milestone k) := by
  cases k <;> rfl

/-! ## Reading a row back -/

theorem scanTime_zero : scanTime 0 = 0 := by
  simp [scanTime]

theorem scanTime_of_parses (t : Time) (h : t.parses = true) : scanTime t = t := by
  simp [scanTime, h]

theorem scanTime_idem (t : Time) : scanTime (scanTime t) = scanTime t := by
  by_cases h : t.parses = true
  · rw [scanTime_of_parses t h, scanTime_of_parses t h]
  · have : scanTime t = 0 := by simp [scanTime, h]
    rw [this, scanTime_zero]

/-- A time that reads back as non-zero reads back as itself. -/
theorem scanTime_of_ne (t : Time) (h : scanTime t ≠ 0) : scanTime t = t := by
  by_cases hp : t.parses = true
  · exact scanTime_of_parses t hp
  · exact absurd (by simp [scanTime, hp]) h

theorem timeTransformer_scan_self (b : Time) : timeTransformer (scanTime b) b = b := by
  by_cases h : scanTime b = 0
  · rw [h, timeTransformer_zero_left]
  · rw [timeTransformer_of_ne _ _ h, scanTime_of_ne b h]

theorem timeTransformer_scan_idem (a b : Time) :
    timeTransformer (scanTime (timeTransformer (scanTime a) b)) b
      = timeTransformer (scanTime a) b := by
  by_cases h : scanTime a = 0
  · rw [h, timeTransformer_zero_left, timeTransformer_scan_self]
  · rw [timeTransformer_of_ne _ _ h, scanTime_idem, timeTransformer_of_ne _ _ h]

@[simp] theorem scanRow_UID (r : Pod) : (scanRow r).UID = r.UID := rfl

@[simp] theorem scanRow_Namespace (r : Pod) : (scanRow r).Namespace = r.Namespace := rfl

@[simp] theorem scanRow_Name (r : Pod) : (scanRow r).Name = r.Name := rfl

theorem scanRow_milestone (r : Pod) (k : Milestone) :
    (scanRow r).milestone k = scanTime (r.milestone k) := by
  cases k <;> rfl

theorem mergoMerge_scan_self (p : Pod) : mergoMerge (scanRow p) p = p := by
  cases p; simp [mergoMerge, scanRow, mergeString_self, timeTransformer_scan_self]

theorem mergoMerge_scan_idem (r p : Pod) :
    mergoMerge (scanRow (mergoMerge (scanRow r) p)) p = mergoMerge (scanRow r) p := by
  simp [mergoMerge, scanRow, mergeString_idem, timeTransformer_scan_idem]

/-- A time column of the row written back after a read: the stored value when
it reads back as non-zero, else the value of the event's record. -/
theorem mergoMerge_scan_milestone (r p : Pod) (k : Milestone) :
    (mergoMerge (scanRow r) p).milestone k
      = timeTransformer (scanTime (r.milestone k)) (p.milestone k) := by
  rw [mergoMerge_milestone, scanRow_milestone]

/-! ## The table -/

theorem lookup_some_UID {db : DB} {u : String} {r : Pod} (h : db.lookup u = some r) :
    r.UID = u := by
  have := List.find?_some h
  simpa using this

theorem lookup_some_mem {db : DB} {u : String} {r : Pod} (h : db.lookup u = some r) :
    r ∈ db :=
  List.mem_of_find?_eq_some h

theorem lookup_none_ne {db : DB} {u : String} (h : db.lookup u = Option.none) :
    ∀ r ∈ db, r.UID ≠ u := by
  intro r hr
  have := List.find?_eq_none.mp h r hr
  simpa using this

theorem any_of_lookup_some {db : DB} {u : String} {r : Pod} (h : db.lookup u = some r) :
    db.any (fun x => x.UID == u) = true := by
  rw [List.any_eq_true]
  exact ⟨r, lookup_some_mem h, by simp [lookup_some_UID h]⟩

theorem any_of_lookup_none {db : DB} {u : String} (h : db.lookup u = Option.none) :
    db.any (fun x => x.UID == u) = false := by
  rw [List.any_eq_false]
  intro r hr
  simpa using lookup_none_ne h r hr

theorem lookup_append_of_some {db : DB} {u : String} {r : Pod} (l : DB)
    (h : db.lookup u = some r) : (db ++ l).lookup u = some r := by
  unfold DB.lookup at *
  rw [List.find?_append, h]; rfl

theorem lookup_append_of_none {db : DB} {u : String} (l : DB)
    (h : db.lookup u = Option.none) : (db ++ l).lookup u = l.lookup u := by
  unfold DB.lookup at *
  rw [List.find?_append, h]; rfl

theorem lookup_singleton (v : Pod) : DB.lookup [v] v.UID = some v := by
  simp [DB.lookup]

theorem lookup_map (db : DB) (f : Pod → Pod) (hf : ∀ x, (f x).UID = x.UID) (u : String) :
    DB.lookup (db.map f) u = (db.lookup u).map f := by
  induction db with
  | nil => rfl
  | cons x xs ih =>
    unfold DB.lookup at *
    simp only [List.map_cons, List.find?_cons, hf]
    by_cases hx : x.UID = u
    · simp [hx]
    · have hb : (x.UID == u) = false := by simpa using hx
      simp only [hb]; exact ih

theorem leastByUID_lookup {db : DB} {m : Pod} (h : db.leastByUID = some m) :
    db.lookup m.UID = some m := by
  induction db generalizing m with
  | nil => simp [DB.leastByUID] at h
  | cons x xs ih =>
    simp only [DB.leastByUID] at h
    cases hxs : DB.leastByUID xs with
    | none =>
      rw [hxs] at h
      simp only [Option.some.injEq] at h
      subst h; simp [DB.lookup]
    | some m' =>
      rw [hxs] at h
      simp only at h
      split at h
      · rename_i hlt
        simp only [Option.some.injEq] at h
        subst h
        have hne : x.UID ≠ m'.UID := fun hx => by
          rw [hx] at hlt; exact absurd hlt (lt_irrefl _)
        have := ih hxs
        unfold DB.lookup at *
        simp [List.find?_cons, hne, this]
      · simp only [Option.some.injEq] at h
        subst h; simp [DB.lookup]

theorem leastByUID_map (db : DB) (f : Pod → Pod) (hf : ∀ x, (f x).UID = x.UID) :
    DB.leastByUID (db.map f) = (db.leastByUID).map f := by
  induction db with
  | nil => rfl
  | cons x xs ih =>
    simp only [List.map_cons, DB.leastByUID, ih]
    cases DB.leastByUID xs with
    | none => rfl
    | some m =>
      simp only [Option.map_some', hf]
      split <;> rfl

theorem leastByUID_none {db : DB} (h : db.leastByUID = Option.none) : db = [] := by
  cases db with
  | nil => rfl
  | cons x xs =>
    simp only [DB.leastByUID] at h
    cases hxs : DB.leastByUID xs with
    | none => rw [hxs] at h; simp at h
    | some m => rw [hxs] at h; simp only at h; split at h <;> simp at h

/-! ## One step of the handler -/

theorem eventAdd_some {e : Event} {p : Pod} (db : DB) (he : eventToPod e = some p) :
    eventAdd .none db (.event e) =
      match (if p.UID = "" then db.leastByUID else db.lookup p.UID) with
      | some row => dbSave .none db (mergoMerge (scanRow row) p)
      | Option.none => insertRow db p := by
  simp only [eventAdd, he, dbFirst, Faults.none, dbCreate]
  cases (if p.UID = "" then db.leastByUID else db.lookup p.UID) <;> simp

theorem dbSave_present (db : DB) (v r : Pod) (hv : v.UID ≠ "")
    (hr : db.lookup v.UID = some r) :
    dbSave .none db v = db.map (fun x => if x.UID = v.UID then v else x) := by
  simp [dbSave, Faults.none, hv, any_of_lookup_some hr]

theorem insertRow_absent {db : DB} {v : Pod} (h : db.lookup v.UID = Option.none) :
    insertRow db v = db ++ [v] := by
  simp only [insertRow, any_of_lookup_none h]; rfl

theorem insertRow_present {db : DB} {v r : Pod} (h : db.lookup v.UID = some r) :
    insertRow db v = db := by
  simp only [insertRow, any_of_lookup_some h]; rfl

/-- An event with a non-empty UID that has no row yet: its record is appended. -/
theorem eventAdd_absent {db : DB} {e : Event} {p : Pod} (he : eventToPod e = some p)
    (hu : p.UID ≠ "") (hn : db.lookup p.UID = Option.none) :
    eventAdd .none db (.event e) = db ++ [p] := by
  rw [eventAdd_some db he]
  simp only [hu, if_false, hn]
  exact insertRow_absent hn

/-- An event with a non-empty UID that has a row: the row is replaced by the
merge of the row with the event's record. -/
theorem eventAdd_present {db : DB} {e : Event} {p r : Pod} (he : eventToPod e = some p)
    (hu : p.UID ≠ "") (hs : db.lookup p.UID = some r) :
    eventAdd .none db (.event e) =
      db.map (fun x => if x.UID = p.UID then mergoMerge (scanRow r) p else x) := by
  rw [eventAdd_some db he]
  simp only [hu, if_false, hs]
  have hU : (mergoMerge (scanRow r) p).UID = p.UID := by
    rw [mergoMerge_UID_of_eq (scanRow r) p (lookup_some_UID hs : r.UID = p.UID),
      scanRow_UID, lookup_some_UID hs]
  have := dbSave_present db (mergoMerge (scanRow r) p) r (by rw [hU]; exact hu)
    (by rw [hU]; exact hs)
  rw [this, hU]

/-- The row that `db.First` hands to the merge, for an event record `p`. -/
theorem eventAdd_found {db : DB} {e : Event} {p r : Pod} (he : eventToPod e = some p)
    (hsel : (if p.UID = "" then db.leastByUID else db.lookup p.UID) = some r) :
    (mergoMerge (scanRow r) p).UID = r.UID ∧ db.lookup r.UID = some r ∧
    eventAdd .none db (.event e) =
      if r.UID = "" then db
      else db.map (fun x => if x.UID = r.UID then mergoMerge (scanRow r) p else x) := by
  have hfacts : (mergoMerge (scanRow r) p).UID = r.UID ∧ db.lookup r.UID = some r := by
    by_cases hu : p.UID = ""
    · simp only [hu, if_true] at hsel
      exact ⟨mergoMerge_UID_of_empty (scanRow r) p hu, leastByUID_lookup hsel⟩
    · simp only [hu, if_false] at hsel
      have hrU := lookup_some_UID hsel
      exact ⟨mergoMerge_UID_of_eq (scanRow r) p hrU, by rw [hrU]; exact hsel⟩
  obtain ⟨hU, hr⟩ := hfacts
  refine ⟨hU, hr, ?_⟩
  rw [eventAdd_some db he, hsel]
  by_cases hru : r.UID = ""
  · have hrow : db.lookup (mergoMerge (scanRow r) p).UID = some r := by rw [hU]; exact hr
    have hins := insertRow_present hrow
    simp [dbSave, Faults.none, hU, hru, hins]
  · have := dbSave_present db (mergoMerge (scanRow r) p) r (by rw [hU]; exact hru) (by rw [hU]; exact hr)
    simp only [this, hU, hru, if_false]

/-- No row handed over by `db.First`: the event's record is inserted. -/
theorem eventAdd_notFound {db : DB} {e : Event} {p : Pod} (he : eventToPod e = some p)
    (hsel : (if p.UID = "" then db.leastByUID else db.lookup p.UID) = Option.none) :
    db.lookup p.UID = Option.none ∧ eventAdd .none db (.event e) = db ++ [p] := by
  have hn : db.lookup p.UID = Option.none := by
    by_cases hu : p.UID = ""
    · simp only [hu, if_true] at hsel
      rw [leastByUID_none hsel]; rfl
    · simpa only [hu, if_false] using hsel
  refine ⟨hn, ?_⟩
  rw [eventAdd_some db he, hsel]
  exact insertRow_absent hn

/-- What one step does to a stored record: it stays as it is, or it becomes
its merge with the event's record. -/
theorem eventAdd_lookup {db : DB} {u : String} {r : Pod} (obj : Obj)
    (h : db.lookup u = some r) :
    (eventAdd .none db obj).lookup u = some r
    ∨ ∃ e p, obj = .event e ∧ eventToPod e = some p
        ∧ (eventAdd .none db obj).lookup u = some (mergoMerge (scanRow r) p) := by
  cases obj with
  | other => left; exact h
  | event e =>
    cases he : eventToPod e with
    | none => left; simpa [eventAdd, he] using h
    | some p =>
      cases hsel : (if p.UID = "" then db.leastByUID else db.lookup p.UID) with
      | none =>
        left
        rw [(eventAdd_notFound he hsel).2]
        exact lookup_append_of_some _ h
      | some r0 =>
        obtain ⟨hU, hr0, hstep⟩ := eventAdd_found he hsel
        rw [hstep]
        by_cases hru : r0.UID = ""
        · left; simpa only [hru, if_true] using h
        · simp only [hru, if_false]
          rw [lookup_map db _ (fun x => by split <;> simp_all) u, h]
          simp only [Option.map_some']
          by_cases hx : r.UID = r0.UID
          · right
            refine ⟨e, p, rfl, he, ?_⟩
            have : r0 = r := by
              have h1 : db.lookup r0.UID = some r := by
                rw [← hx, lookup_some_UID h]; exact h
              rw [hr0] at h1; exact Option.some.inj h1
            simp [hx, this]
          · left; simp [hx]

/-! ## The classifier -/

theorem mem_knownReasons (s : String) :
    s ∈ knownReasons ↔ ∃ k : Milestone, s = k.reason := by
  constructor
  · intro h
    simp only [knownReasons, List.mem_cons, List.mem_singleton, List.not_mem_nil,
      or_false] at h
    rcases h with h | h | h | h | h | h | h
    · exact ⟨.Scheduled, h⟩
    · exact ⟨.AllocIPSucceed, h⟩
    · exact ⟨.Pulling, h⟩
    · exact ⟨.Pulled, h⟩
    · exact ⟨.Created, h⟩
    · exact ⟨.Started, h⟩
    · exact ⟨.Killing, h⟩
  · rintro ⟨k, rfl⟩
    cases k <;> simp [knownReasons, Milestone.reason]

theorem eventToPod_of_reason (e : Event) (k : Milestone) (h : e.Reason = k.reason) :
    ∃ p, eventToPod e = some p
      ∧ p.UID = e.InvolvedObject.UID
      ∧ p.Namespace = e.InvolvedObject.Namespace
      ∧ p.Name = e.InvolvedObject.Name
      ∧ p.milestone k = e.CreationTimestamp
      ∧ ∀ k', k' ≠ k → p.milestone k' = 0 := by
  cases k <;> simp only [Milestone.reason] at h <;>
    simp [eventToPod, h, Pod.milestone] <;>
    intro k' hk' <;> cases k' <;> first | rfl | exact absurd rfl hk'

theorem eventToPod_none_of_unknown (e : Event) (h : e.Reason ∉ knownReasons) :
    eventToPod e = Option.none := by
  simp only [knownReasons, List.mem_cons, List.mem_singleton, List.not_mem_nil,
    or_false, not_or] at h
  simp [eventToPod, h]

theorem eventToPod_none_iff (e : Event) :
    eventToPod e = Option.none ↔ e.Reason ∉ knownReasons := by
  constructor
  · intro hnone hmem
    obtain ⟨k, hk⟩ := (mem_knownReasons _).mp hmem
    obtain ⟨p, hp, _⟩ := eventToPod_of_reason e k hk
    rw [hnone] at hp
    exact Option.noConfusion hp
  · exact eventToPod_none_of_unknown e

/-! ## Two further facts about the update -/

theorem map_replace_append {db : DB} {u : String} (v w : Pod)
    (h : db.lookup u = Option.none) :
    (db ++ [v]).map (fun x => if x.UID = u then w else x)
      = db ++ [if v.UID = u then w else v] := by
  rw [List.map_append]
  congr 1
  calc db.map (fun x => if x.UID = u then w else x)
      = db.map id := List.map_congr_left (fun x hx => by
          simp [lookup_none_ne h x hx])
    _ = db := List.map_id db

/-- The record of an event with a non-empty UID after one step, from the
record before it. -/
theorem eventAdd_lookup_same (db : DB) {e : Event} {p : Pod} (he : eventToPod e = some p)
    (hu : p.UID ≠ "") :
    (eventAdd .none db (.event e)).lookup p.UID =
      match db.lookup p.UID with
      | Option.none => some p
      | some r => some (mergoMerge (scanRow r) p) := by
  cases hl : db.lookup p.UID with
  | none =>
    rw [eventAdd_absent he hu hl, lookup_append_of_none _ hl]
    exact lookup_singleton p
  | some r =>
    rw [eventAdd_present he hu hl,
      lookup_map db _ (fun x => by
        split
        · rename_i hx
          rw [mergoMerge_UID_of_eq (scanRow r) p
            (lookup_some_UID hl : r.UID = p.UID),
            scanRow_UID, lookup_some_UID hl, hx]
        · rfl) p.UID, hl]
    simp [lookup_some_UID hl]

/-- Handling the same event again changes nothing. -/
theorem eventAdd_twice (db : DB) (e : Event) :
    eventAdd .none (eventAdd .none db (.event e)) (.event e)
      = eventAdd .none db (.event e) := by
  cases he : eventToPod e with
  | none => simp [eventAdd, he]
  | some p =>
    cases hsel : (if p.UID = "" then db.leastByUID else db.lookup p.UID) with
    | none =>
      obtain ⟨hn, hstep⟩ := eventAdd_notFound he hsel
      rw [hstep]
      have hsel2 : (if p.UID = "" then DB.leastByUID (db ++ [p])
          else DB.lookup (db ++ [p]) p.UID) = some p := by
        by_cases hu : p.UID = ""
        · simp only [hu, if_true] at hsel ⊢
          rw [leastByUID_none hsel]; rfl
        · simp only [hu, if_false]
          rw [lookup_append_of_none _ hn]; exact lookup_singleton p
      obtain ⟨_, _, hstep2⟩ := eventAdd_found he hsel2
      rw [hstep2]
      by_cases hu : p.UID = ""
      · simp only [hu, if_true]
      · simp only [hu, if_false]
        rw [map_replace_append p (mergoMerge (scanRow p) p) hn, mergoMerge_scan_self]
        simp
    | some r =>
      obtain ⟨hU, hr, hstep⟩ := eventAdd_found he hsel
      by_cases hru : r.UID = ""
      · simp only [hru, if_true] at hstep
        rw [hstep, hstep]
      · simp only [hru, if_false] at hstep
        have hf : ∀ x : Pod,
            (if x.UID = r.UID then mergoMerge (scanRow r) p else x).UID = x.UID := by
          intro x; split
          · rename_i hx; rw [hU, hx]
          · rfl
        have hsel2 : (if p.UID = "" then
              DB.leastByUID (db.map (fun x => if x.UID = r.UID then mergoMerge (scanRow r) p else x))
            else DB.lookup (db.map (fun x => if x.UID = r.UID then mergoMerge (scanRow r) p else x))
              p.UID) = some (mergoMerge (scanRow r) p) := by
          by_cases hu : p.UID = ""
          · simp only [hu, if_true] at hsel ⊢
            rw [leastByUID_map db _ hf, hsel]; simp
          · simp only [hu, if_false] at hsel ⊢
            rw [lookup_map db _ hf, hsel]; simp
        rw [hstep]
        obtain ⟨_, _, hstep2⟩ := eventAdd_found he hsel2
        rw [hstep2, hU, mergoMerge_scan_idem]
        simp only [hru, if_false, List.map_map]
        apply List.map_congr_left
        intro x _
        simp only [Function.comp]
        by_cases hx : x.UID = r.UID
        · simp [hx, hU]
        · simp [hx]

/-! ## Merging two records of different kinds -/

theorem timeTransformer_comm_of_zero (a b : Time) (h : a = 0 ∨ b = 0) :
    timeTransformer a b = timeTransformer b a := by
  rcases h with h | h <;> subst h <;>
    rw [timeTransformer_zero_left, timeTransformer_zero_right]

theorem timeTransformer_swap (x a b : Time) (h : a = 0 ∨ b = 0) :
    timeTransformer (timeTransformer x a) b = timeTransformer (timeTransformer x b) a := by
  rcases h with h | h <;> subst h <;> simp only [timeTransformer_zero_right]

/-- Two event records of different kinds: in every time column one of them
holds zero. -/
theorem milestone_zero_of_kinds {p1 p2 : Pod} {k1 k2 : Milestone} (hk : k1 ≠ k2)
    (h1 : ∀ k', k' ≠ k1 → p1.milestone k' = 0)
    (h2 : ∀ k', k' ≠ k2 → p2.milestone k' = 0) (k : Milestone) :
    p1.milestone k = 0 ∨ p2.milestone k = 0 := by
  by_cases h : k = k1
  · right; exact h2 k (by rw [h]; exact hk)
  · left; exact h1 k h

/-! ## Other rows, and the keys of the table -/

theorem eventToPod_some_UID {e : Event} {p : Pod} (h : eventToPod e = some p) :
    p.UID = e.InvolvedObject.UID := by
  have hmem : e.Reason ∈ knownReasons := by
    by_contra hn
    rw [eventToPod_none_of_unknown e hn] at h
    exact Option.noConfusion h
  obtain ⟨k, hk⟩ := (mem_knownReasons _).mp hmem
  obtain ⟨q, hq, hU, _⟩ := eventToPod_of_reason e k hk
  rw [h] at hq
  rw [Option.some.inj hq]; exact hU

/-- An event with a non-empty UID leaves the record of every other UID as it
was. -/
theorem eventAdd_lookup_other (db : DB) (e : Event) (u : String) (r : Pod)
    (huid : e.InvolvedObject.UID ≠ "") (hu : u ≠ e.InvolvedObject.UID)
    (hrec : db.lookup u = some r) :
    (eventAdd .none db (.event e)).lookup u = some r := by
  cases he : eventToPod e with
  | none => simpa [eventAdd, he] using hrec
  | some p =>
    have hpU := eventToPod_some_UID he
    have hp : p.UID ≠ "" := by rw [hpU]; exact huid
    cases hl : db.lookup p.UID with
    | none =>
      rw [eventAdd_absent he hp hl]
      exact lookup_append_of_some _ hrec
    | some r0 =>
      rw [eventAdd_present he hp hl,
        lookup_map db _ (fun x => by
          split
          · rename_i hx
            rw [mergoMerge_UID_of_eq (scanRow r0) p
              (lookup_some_UID hl : r0.UID = p.UID),
              scanRow_UID, lookup_some_UID hl, hx]
          · rfl) u, hrec]
      have hne : r.UID ≠ p.UID := by
        rw [lookup_some_UID hrec, hpU]; exact hu
      simp [hne]

/-- The keys after one step: the keys before, with the key of the event
appended when its record was inserted. -/
theorem eventAdd_keys (db : DB) (e : Event) :
    (eventAdd .none db (.event e)).map Pod.UID = db.map Pod.UID
    ∨ (eventAdd .none db (.event e)).map Pod.UID
        = db.map Pod.UID ++ [e.InvolvedObject.UID] := by
  cases he : eventToPod e with
  | none => left; simp [eventAdd, he]
  | some p =>
    cases hsel : (if p.UID = "" then db.leastByUID else db.lookup p.UID) with
    | none =>
      right
      rw [(eventAdd_notFound he hsel).2, List.map_append, ← eventToPod_some_UID he]
      rfl
    | some r =>
      left
      obtain ⟨hU, _, hstep⟩ := eventAdd_found he hsel
      rw [hstep]
      by_cases hru : r.UID = ""
      · simp only [hru, if_true]
      · simp only [hru, if_false, List.map_map]
        apply List.map_congr_left
        intro x _
        simp only [Function.comp]
        split
        · rename_i hx; rw [hU, hx]
        · rfl

/-! ## Failing storage calls -/

/-- When both writing calls fail, nothing is written. -/
theorem eventAdd_write_failed (fl : Faults) (db : DB) (obj : Obj)
    (hc : fl.create = true) (hs : fl.save = true) : eventAdd fl db obj = db := by
  cases obj with
  | other => rfl
  | event e =>
    simp only [eventAdd]
    cases eventToPod e with
    | none => rfl
    | some p =>
      simp only
      split <;> simp [dbCreate, dbSave, hc, hs]

/-! ## Times that read back -/

theorem parses_zero : Time.parses 0 = true := by decide

theorem scanTime_parses (t : Time) : (scanTime t).parses = true := by
  by_cases h : t.parses = true
  · rw [scanTime_of_parses t h]; exact h
  · have : scanTime t = 0 := by simp [scanTime, h]
    rw [this]; exact parses_zero

theorem timeTransformer_parses (a b : Time) (ha : a.parses = true) (hb : b.parses = true) :
    (timeTransformer a b).parses = true := by
  unfold timeTransformer; split <;> assumption

/-- The record of an event whose timestamp reads back: every time column of
it reads back. -/
theorem milestone_parses_of_event {p : Pod} {k : Milestone} {t : Time}
    (hm : p.milestone k = t) (hz : ∀ k', k' ≠ k → p.milestone k' = 0)
    (ht : t.parses = true) (k' : Milestone) : (p.milestone k').parses = true := by
  by_cases h : k' = k
  · rw [h, hm]; exact ht
  · rw [hz k' h]; exact parses_zero

/-! ## The read and the write of one call -/

/-- The handler is its read followed by its write. -/
theorem eventAdd_eq_steps (fl : Faults) (db : DB) (obj : Obj) :
    eventAdd fl db obj = writeStep fl db (readStep fl db obj) := by
  cases obj with
  | other => rfl
  | event e =>
    simp only [eventAdd, readStep]
    cases eventToPod e with
    | none => rfl
    | some p =>
      simp only
      split <;> rfl

theorem readStep_some {e : Event} {p : Pod} (db : DB) (he : eventToPod e = some p) :
    readStep .none db (.event e) =
      match (if p.UID = "" then db.leastByUID else db.lookup p.UID) with
      | some row => .save (mergoMerge (scanRow row) p)
      | Option.none => .create p := by
  simp only [readStep, he, dbFirst, Faults.none]
  cases (if p.UID = "" then db.leastByUID else db.lookup p.UID) <;> simp

/-- Two calls for one UID that both read the table before either writes: the
table ends as one of the two calls alone would leave it. -/
theorem stale_write (db : DB) (a b : Event)
    (hsame : a.InvolvedObject.UID = b.InvolvedObject.UID) :
    writeStep .none (writeStep .none db (readStep .none db (.event a)))
        (readStep .none db (.event b)) = eventAdd .none db (.event a)
    ∨ writeStep .none (writeStep .none db (readStep .none db (.event a)))
        (readStep .none db (.event b)) = eventAdd .none db (.event b) := by
  cases ha : eventToPod a with
  | none =>
    right
    have : readStep .none db (.event a) = .nothing := by simp [readStep, ha]
    rw [this, eventAdd_eq_steps]; rfl
  | some pa =>
    cases hb : eventToPod b with
    | none =>
      left
      have : readStep .none db (.event b) = .nothing := by simp [readStep, hb]
      rw [this, eventAdd_eq_steps]; rfl
    | some pb =>
      have hU : pb.UID = pa.UID := by
        rw [eventToPod_some_UID ha, eventToPod_some_UID hb, hsame]
      rw [readStep_some db ha, readStep_some db hb, hU]
      cases hsel : (if pa.UID = "" then db.leastByUID else db.lookup pa.UID) with
      | none =>
        left
        obtain ⟨hn, hstep⟩ := eventAdd_notFound ha hsel
        rw [hstep]
        simp only [writeStep, dbCreate, Faults.none]
        rw [insertRow_absent hn]
        have hl : DB.lookup (db ++ [pa]) pb.UID = some pa := by
          rw [hU, lookup_append_of_none _ hn]; exact lookup_singleton pa
        simpa using insertRow_present hl
      | some r =>
        right
        have hselb : (if pb.UID = "" then db.leastByUID else db.lookup pb.UID) = some r := by
          rw [hU]; exact hsel
        obtain ⟨hUa, hr, _⟩ := eventAdd_found ha hsel
        obtain ⟨hUb, _, hstepb⟩ := eventAdd_found hb hselb
        rw [hstepb]
        simp only [writeStep]
        by_cases hru : r.UID = ""
        · have h1 : dbSave .none db (mergoMerge (scanRow r) pa) = db := by
            have hrow : db.lookup (mergoMerge (scanRow r) pa).UID = some r := by
              rw [hUa]; exact hr
            simp [dbSave, Faults.none, hUa, hru, insertRow_present hrow]
          have h2 : dbSave .none db (mergoMerge (scanRow r) pb) = db := by
            have hrow : db.lookup (mergoMerge (scanRow r) pb).UID = some r := by
              rw [hUb]; exact hr
            simp [dbSave, Faults.none, hUb, hru, insertRow_present hrow]
          rw [h1, h2]; simp [hru]
        · have h1 := dbSave_present db (mergoMerge (scanRow r) pa) r
            (by rw [hUa]; exact hru) (by rw [hUa]; exact hr)
          rw [h1, hUa]
          have hf : ∀ x : Pod,
              (if x.UID = r.UID then mergoMerge (scanRow r) pa else x).UID = x.UID := by
            intro x; split
            · rename_i hx; rw [hUa, hx]
            · rfl
          have hl : DB.lookup
              (db.map (fun x => if x.UID = r.UID then mergoMerge (scanRow r) pa else x))
              (mergoMerge (scanRow r) pb).UID = some (mergoMerge (scanRow r) pa) := by
            rw [hUb, lookup_map db _ hf, hr]; simp
          have h2 := dbSave_present _ (mergoMerge (scanRow r) pb) _
            (by rw [hUb]; exact hru) hl
          rw [h2, hUb]
          simp only [hru, if_false, List.map_map]
          apply List.map_congr_left
          intro x _
          simp only [Function.comp]
          by_cases hx : x.UID = r.UID
          · simp [hx, hUa]
          · simp [hx]

/-- The two schedules in which one call finishes before the other starts. -/
theorem interleave_serial (db : DB) (a b : Obj) :
    interleave .none db (Call.start a) (Call.start b) [false, false, true, true]
      = eventAdd .none (eventAdd .none db a) b
    ∧ interleave .none db (Call.start a) (Call.start b) [true, true, false, false]
      = eventAdd .none (eventAdd .none db b) a := by
  simp [interleave, Call.advance, Call.start, eventAdd_eq_steps]

/-- The four schedules in which both calls read before either writes. -/
theorem interleave_overlap (db : DB) (a b : Obj) :
    interleave .none db (Call.start a) (Call.start b) [false, true, false, true]
      = writeStep .none (writeStep .none db (readStep .none db a)) (readStep .none db b)
    ∧ interleave .none db (Call.start a) (Call.start b) [true, false, false, true]
      = writeStep .none (writeStep .none db (readStep .none db a)) (readStep .none db b)
    ∧ interleave .none db (Call.start a) (Call.start b) [false, true, true, false]
      = writeStep .none (writeStep .none db (readStep .none db b)) (readStep .none db a)
    ∧ interleave .none db (Call.start a) (Call.start b) [true, false, true, false]
      = writeStep .none (writeStep .none db (readStep .none db b)) (readStep .none db a) := by
  simp [interleave, Call.advance, Call.start]

/-! ## The claims -/

/-- C1, as amended: for every non-empty UID, every milestone kind and every
pair of timestamps t1, t2 where t1 is not the zero time and lies in the years
0 to 9999 (the times the store reads back), starting from a store with no
record for the UID, handling an event of that kind with timestamp t1 and then
one of the same kind and UID with timestamp t2 leaves the stored milestone of
that kind equal to t1. -/
theorem C1_first_write_wins (db : DB) (e1 e2 : Event) (k : Milestone)
    (hr1 : e1.Reason = k.reason) (hr2 : e2.Reason = k.reason)
    (hsame : e2.InvolvedObject.UID = e1.InvolvedObject.UID)
    (huid : e1.InvolvedObject.UID ≠ "")
    (ht1 : e1.CreationTimestamp ≠ 0)
    (hread : e1.CreationTimestamp.parses = true)
    (habs : db.lookup e1.InvolvedObject.UID = Option.none) :
    ∃ r, (eventAdd .none (eventAdd .none db (.event e1)) (.event e2)).lookup
            e1.InvolvedObject.UID = some r
      ∧ r.milestone k = e1.CreationTimestamp := by
  obtain ⟨p1, hp1, hU1, _, _, hm1, _⟩ := eventToPod_of_reason e1 k hr1
  obtain ⟨p2, hp2, hU2, _, _, _, _⟩ := eventToPod_of_reason e2 k hr2
  have h1 := eventAdd_lookup_same db hp1 (by rw [hU1]; exact huid)
  rw [hU1, habs] at h1
  have hU21 : p2.UID = e1.InvolvedObject.UID := by rw [hU2, hsame]
  have h2 := eventAdd_lookup_same (eventAdd .none db (.event e1)) hp2
    (by rw [hU21]; exact huid)
  rw [hU21, h1] at h2
  refine ⟨_, h2, ?_⟩
  rw [mergoMerge_scan_milestone, hm1, scanTime_of_parses _ hread]
  exact timeTransformer_of_ne _ _ ht1

/-- C1 at a concrete input. -/
theorem C1_first_write_wins_witness :
    ∃ r, (eventAdd .none
            (eventAdd .none [] (.event (podEvent "u1" "default" "web" "Scheduled" 10)))
            (.event (podEvent "u1" "default" "web" "Scheduled" 5))).lookup "u1" = some r
      ∧ r.milestone .Scheduled = 10 :=
  C1_first_write_wins [] (podEvent "u1" "default" "web" "Scheduled" 10)
    (podEvent "u1" "default" "web" "Scheduled" 5) .Scheduled rfl rfl rfl
    (by decide) (by decide) (by decide) rfl

/-- C1 as stated fails in three ways.  With t1 the zero time and t2 = 5 the
stored Scheduled is 5, not t1.  With the empty UID on a store that holds only
pod "a", both events are merged into the row of "a" and no record exists for
the event's UID.  With t1 = 315537897600, the first second of year 10000, and
t2 = 12, the first event stores t1, the second reads it back as zero and
stores 12. -/
theorem C1_first_write_wins_counterexample :
    ((0 : Time) ≠ 5 ∧ DB.lookup [] "u1" = Option.none
      ∧ ((eventAdd .none
            (eventAdd .none [] (.event (podEvent "u1" "default" "web" "Scheduled" 0)))
            (.event (podEvent "u1" "default" "web" "Scheduled" 5))).lookup "u1").map
          (fun r => r.milestone .Scheduled) = some 5)
    ∧ ((7 : Time) ≠ 9
      ∧ DB.lookup [⟨"a", "default", "db", 0, 0, 0, 0, 0, 0, 0⟩] "" = Option.none
      ∧ eventAdd .none
          (eventAdd .none [⟨"a", "default", "db", 0, 0, 0, 0, 0, 0, 0⟩]
            (.event (podEvent "" "default" "web" "Scheduled" 7)))
          (.event (podEvent "" "default" "web" "Scheduled" 9))
        = [⟨"a", "default", "db", 7, 0, 0, 0, 0, 0, 0⟩])
    ∧ ((315537897600 : Time) ≠ 12 ∧ (315537897600 : Time) ≠ 0
      ∧ eventAdd .none [] (.event (podEvent "u1" "default" "web" "Scheduled" 315537897600))
        = [⟨"u1", "default", "web", 315537897600, 0, 0, 0, 0, 0, 0⟩]
      ∧ eventAdd .none
          (eventAdd .none []
            (.event (podEvent "u1" "default" "web" "Scheduled" 315537897600)))
          (.event (podEvent "u1" "default" "web" "Scheduled" 12))
        = [⟨"u1", "default", "web", 12, 0, 0, 0, 0, 0, 0⟩]) := by
  decide

/-- C2, as amended: a milestone field of a stored record that is set
(non-zero) to a time in the years 0 to 9999 (a time the store reads back) has
the same value after eventAdd handles any further notification, whatever its
reason, UID and timestamp. -/
theorem C2_write_once (db : DB) (u : String) (r : Pod) (k : Milestone) (obj : Obj)
    (hrec : db.lookup u = some r) (hset : r.milestone k ≠ 0)
    (hread : (r.milestone k).parses = true) :
    ∃ r', (eventAdd .none db obj).lookup u = some r'
      ∧ r'.milestone k = r.milestone k := by
  rcases eventAdd_lookup obj hrec with h | ⟨e, p, _, _, h⟩
  · exact ⟨r, h, rfl⟩
  · refine ⟨_, h, ?_⟩
    rw [mergoMerge_scan_milestone, scanTime_of_parses _ hread]
    exact timeTransformer_of_ne _ _ hset

/-- C2 at a concrete input: Scheduled = 10 survives a Scheduled event at 5. -/
theorem C2_write_once_witness :
    ∃ r', (eventAdd .none [⟨"u1", "default", "web", 10, 0, 0, 0, 0, 0, 0⟩]
            (.event (podEvent "u1" "default" "web" "Scheduled" 5))).lookup "u1" = some r'
      ∧ r'.milestone .Scheduled
          = (⟨"u1", "default", "web", 10, 0, 0, 0, 0, 0, 0⟩ : Pod).milestone .Scheduled :=
  C2_write_once [⟨"u1", "default", "web", 10, 0, 0, 0, 0, 0, 0⟩] "u1"
    ⟨"u1", "default", "web", 10, 0, 0, 0, 0, 0, 0⟩ .Scheduled
    (.event (podEvent "u1" "default" "web" "Scheduled" 5)) rfl (by decide) (by decide)

/-- C2 as stated fails for a set field the store does not read back: pod "u1"
is stored with Scheduled = 315537897600, the first second of year 10000; a
Pulling event at 12 arrives; `db.First` reads Scheduled as zero and `db.Save`
writes every column, so the stored Scheduled becomes zero. -/
theorem C2_write_once_counterexample :
    DB.lookup [⟨"u1", "default", "web", 315537897600, 0, 0, 0, 0, 0, 0⟩] "u1"
      = some ⟨"u1", "default", "web", 315537897600, 0, 0, 0, 0, 0, 0⟩
    ∧ (315537897600 : Time) ≠ 0
    ∧ (eventAdd .none [⟨"u1", "default", "web", 315537897600, 0, 0, 0, 0, 0, 0⟩]
          (.event (podEvent "u1" "default" "web" "Pulling" 12))).lookup "u1"
        = some ⟨"u1", "default", "web", 0, 0, 12, 0, 0, 0, 0⟩ := by
  decide

/-- C3: for an event whose reason is one of the seven recognised strings,
eventToPod returns a record with the UID, namespace and name of the involved
object, the milestone of that reason equal to the creation timestamp, and the
six other milestones zero. -/
theorem C3_classifier_mapping (e : Event) (k : Milestone) (h : e.Reason = k.reason) :
    ∃ p, eventToPod e = some p
      ∧ p.UID = e.InvolvedObject.UID
      ∧ p.Namespace = e.InvolvedObject.Namespace
      ∧ p.Name = e.InvolvedObject.Name
      ∧ p.milestone k = e.CreationTimestamp
      ∧ ∀ k', k' ≠ k → p.milestone k' = 0 :=
  eventToPod_of_reason e k h

/-- C3 at a concrete input. -/
theorem C3_classifier_mapping_witness :
    ∃ p, eventToPod (podEvent "u1" "default" "web" "AllocIPSucceed" 11) = some p
      ∧ p.UID = "u1" ∧ p.Namespace = "default" ∧ p.Name = "web"
      ∧ p.milestone .AllocIPSucceed = 11
      ∧ ∀ k', k' ≠ Milestone.AllocIPSucceed → p.milestone k' = 0 :=
  C3_classifier_mapping (podEvent "u1" "default" "web" "AllocIPSucceed" 11)
    .AllocIPSucceed rfl

/-- C4: for an event whose reason is none of the seven recognised strings,
eventToPod returns nil and eventAdd leaves every store as it was. -/
theorem C4_unknown_reason_noop (e : Event) (h : e.Reason ∉ knownReasons) :
    eventToPod e = Option.none ∧ ∀ fl db, eventAdd fl db (.event e) = db := by
  have hn := eventToPod_none_of_unknown e h
  exact ⟨hn, fun fl db => by simp [eventAdd, hn]⟩

/-- C4 at the reason "Evicted". -/
theorem C4_unknown_reason_noop_witness :
    eventToPod (podEvent "u1" "default" "web" "Evicted" 7) = Option.none
      ∧ ∀ fl db, eventAdd fl db (.event (podEvent "u1" "default" "web" "Evicted" 7)) = db :=
  C4_unknown_reason_noop (podEvent "u1" "default" "web" "Evicted" 7) (by decide)

/-- C5, as amended: for every store and every event with a recognised reason
and a non-empty UID, after eventAdd (a) if no record existed for the UID, the
store holds a record for it with the namespace and name of the event, the
targeted milestone equal to the timestamp and every other milestone zero;
(b) if a record existed, its targeted milestone is the timestamp when it was
zero before and its previous value when it was set to a time in the years 0
to 9999 (a time the store reads back). -/
theorem C5_merge_result (db : DB) (e : Event) (k : Milestone)
    (hr : e.Reason = k.reason) (huid : e.InvolvedObject.UID ≠ "") :
    (db.lookup e.InvolvedObject.UID = Option.none →
      ∃ r', (eventAdd .none db (.event e)).lookup e.InvolvedObject.UID = some r'
        ∧ r'.UID = e.InvolvedObject.UID
        ∧ r'.Namespace = e.InvolvedObject.Namespace
        ∧ r'.Name = e.InvolvedObject.Name
        ∧ r'.milestone k = e.CreationTimestamp
        ∧ ∀ k', k' ≠ k → r'.milestone k' = 0)
    ∧ (∀ r, db.lookup e.InvolvedObject.UID = some r →
      ∃ r', (eventAdd .none db (.event e)).lookup e.InvolvedObject.UID = some r'
        ∧ (r.milestone k = 0 → r'.milestone k = e.CreationTimestamp)
        ∧ (r.milestone k ≠ 0 → (r.milestone k).parses = true →
            r'.milestone k = r.milestone k)) := by
  obtain ⟨p, hp, hU, hns, hnm, hm, hz⟩ := eventToPod_of_reason e k hr
  have hstep := eventAdd_lookup_same db hp (by rw [hU]; exact huid)
  rw [hU] at hstep
  constructor
  · intro habs
    rw [habs] at hstep
    exact ⟨p, hstep, hU, hns, hnm, hm, hz⟩
  · intro r hrec
    rw [hrec] at hstep
    refine ⟨_, hstep, ?_, ?_⟩
    · intro h0
      rw [mergoMerge_scan_milestone, h0, scanTime_zero, timeTransformer_zero_left, hm]
    · intro hset hread
      rw [mergoMerge_scan_milestone, scanTime_of_parses _ hread]
      exact timeTransformer_of_ne _ _ hset

/-- C5 at three concrete inputs: no record for "u1"; a record with Pulling
unset; a record with Pulling set to 11. -/
theorem C5_merge_result_witness :
    (∃ r', (eventAdd .none []
              (.event (podEvent "u1" "default" "web" "Pulling" 12))).lookup "u1" = some r'
        ∧ r'.UID = "u1" ∧ r'.Namespace = "default" ∧ r'.Name = "web"
        ∧ r'.milestone .Pulling = 12
        ∧ ∀ k', k' ≠ Milestone.Pulling → r'.milestone k' = 0)
    ∧ (∃ r', (eventAdd .none [⟨"u1", "default", "web", 10, 0, 0, 0, 0, 0, 0⟩]
              (.event (podEvent "u1" "default" "web" "Pulling" 12))).lookup "u1" = some r'
        ∧ r'.milestone .Pulling = 12)
    ∧ (∃ r', (eventAdd .none [⟨"u1", "default", "web", 10, 0, 11, 0, 0, 0, 0⟩]
              (.event (podEvent "u1" "default" "web" "Pulling" 12))).lookup "u1" = some r'
        ∧ r'.milestone .Pulling = 11) := by
  refine ⟨?_, ?_, ?_⟩
  · exact (C5_merge_result [] (podEvent "u1" "default" "web" "Pulling" 12) .Pulling rfl
      (by decide)).1 rfl
  · obtain ⟨r', h, h0, _⟩ :=
      (C5_merge_result [⟨"u1", "default", "web", 10, 0, 0, 0, 0, 0, 0⟩]
        (podEvent "u1" "default" "web" "Pulling" 12) .Pulling rfl (by decide)).2
        ⟨"u1", "default", "web", 10, 0, 0, 0, 0, 0, 0⟩ rfl
    exact ⟨r', h, h0 rfl⟩
  · obtain ⟨r', h, _, hset⟩ :=
      (C5_merge_result [⟨"u1", "default", "web", 10, 0, 11, 0, 0, 0, 0⟩]
        (podEvent "u1" "default" "web" "Pulling" 12) .Pulling rfl (by decide)).2
        ⟨"u1", "default", "web", 10, 0, 11, 0, 0, 0, 0⟩ rfl
    exact ⟨r', h, hset (by decide) (by decide)⟩

/-- C5 as stated fails for the empty UID and for a set field the store does
not read back.  (a) On a store that holds only pod "a" there is no record for
the empty UID; a Scheduled event with empty UID at 7 is merged into the row of
"a" and still no record exists for the empty UID.  (b) On a store that holds a
record with empty UID and Scheduled unset, the same event leaves Scheduled
unset instead of 7.  (b, second part) Pod "u1" is stored with Scheduled =
315537897600, the first second of year 10000; after a Scheduled event at 12
the stored Scheduled is 12, not its previous value. -/
theorem C5_merge_result_counterexample :
    (DB.lookup [⟨"a", "default", "db", 0, 0, 0, 0, 0, 0, 0⟩] "" = Option.none
      ∧ eventAdd .none [⟨"a", "default", "db", 0, 0, 0, 0, 0, 0, 0⟩]
          (.event (podEvent "" "default" "web" "Scheduled" 7))
        = [⟨"a", "default", "db", 7, 0, 0, 0, 0, 0, 0⟩]
      ∧ (eventAdd .none [⟨"a", "default", "db", 0, 0, 0, 0, 0, 0, 0⟩]
          (.event (podEvent "" "default" "web" "Scheduled" 7))).lookup "" = Option.none)
    ∧ (DB.lookup [⟨"", "default", "web", 0, 0, 0, 0, 0, 0, 0⟩] ""
        = some ⟨"", "default", "web", 0, 0, 0, 0, 0, 0, 0⟩
      ∧ (eventAdd .none [⟨"", "default", "web", 0, 0, 0, 0, 0, 0, 0⟩]
          (.event (podEvent "" "default" "web" "Scheduled" 7))).lookup ""
        = some ⟨"", "default", "web", 0, 0, 0, 0, 0, 0, 0⟩)
    ∧ (DB.lookup [⟨"u1", "default", "web", 315537897600, 0, 0, 0, 0, 0, 0⟩] "u1"
        = some ⟨"u1", "default", "web", 315537897600, 0, 0, 0, 0, 0, 0⟩
      ∧ (315537897600 : Time) ≠ 0
      ∧ (eventAdd .none [⟨"u1", "default", "web", 315537897600, 0, 0, 0, 0, 0, 0⟩]
          (.event (podEvent "u1" "default" "web" "Scheduled" 12))).lookup "u1"
        = some ⟨"u1", "default", "web", 12, 0, 0, 0, 0, 0, 0⟩) := by
  decide

/-- C6: handling a notification twice in a row with eventAdd yields exactly
the same store as handling it once. -/
theorem C6_idempotent (db : DB) (obj : Obj) :
    eventAdd .none (eventAdd .none db obj) obj = eventAdd .none db obj := by
  cases obj with
  | other => rfl
  | event e => exact eventAdd_twice db e

/-- C7, as amended: for an existing record and an event for its UID
classified as kind A, eventAdd leaves unchanged the stored value of every
other kind B of that record that is unset or set to a time in the years 0 to
9999 (a value the store reads back). -/
theorem C7_field_independence (db : DB) (e : Event) (r : Pod) (A B : Milestone)
    (hrec : db.lookup e.InvolvedObject.UID = some r)
    (hA : e.Reason = A.reason) (hB : B ≠ A)
    (hread : (r.milestone B).parses = true) :
    ∃ r', (eventAdd .none db (.event e)).lookup e.InvolvedObject.UID = some r'
      ∧ r'.milestone B = r.milestone B := by
  obtain ⟨p, hp, _, _, _, _, hz⟩ := eventToPod_of_reason e A hA
  rcases eventAdd_lookup (.event e) hrec with h | ⟨e', p', he', hp', h⟩
  · exact ⟨r, h, rfl⟩
  · refine ⟨_, h, ?_⟩
    have hee : e' = e := by injection he' with h1; exact h1.symm
    subst hee
    rw [hp] at hp'
    have hpp : p' = p := (Option.some.inj hp').symm
    subst hpp
    rw [mergoMerge_scan_milestone, hz B hB, timeTransformer_zero_right,
      scanTime_of_parses _ hread]

/-- C7 at a concrete input: a Pulling event leaves Scheduled = 10 alone. -/
theorem C7_field_independence_witness :
    ∃ r', (eventAdd .none [⟨"u1", "default", "web", 10, 0, 0, 0, 0, 0, 0⟩]
            (.event (podEvent "u1" "default" "web" "Pulling" 12))).lookup
              (podEvent "u1" "default" "web" "Pulling" 12).InvolvedObject.UID = some r'
      ∧ r'.milestone .Scheduled
          = (⟨"u1", "default", "web", 10, 0, 0, 0, 0, 0, 0⟩ : Pod).milestone .Scheduled :=
  C7_field_independence [⟨"u1", "default", "web", 10, 0, 0, 0, 0, 0, 0⟩]
    (podEvent "u1" "default" "web" "Pulling" 12)
    ⟨"u1", "default", "web", 10, 0, 0, 0, 0, 0, 0⟩ .Pulling .Scheduled rfl rfl
    (by decide) (by decide)

/-- C7 as stated fails for a stored value the store does not read back: pod
"u1" is stored with Scheduled = 315537897600, the first second of year 10000;
a Pulling event at 12 for "u1" (kind A = Pulling, B = Scheduled) leaves the
stored Scheduled at zero. -/
theorem C7_field_independence_counterexample :
    DB.lookup [⟨"u1", "default", "web", 315537897600, 0, 0, 0, 0, 0, 0⟩]
        (podEvent "u1" "default" "web" "Pulling" 12).InvolvedObject.UID
      = some ⟨"u1", "default", "web", 315537897600, 0, 0, 0, 0, 0, 0⟩
    ∧ Milestone.Scheduled ≠ Milestone.Pulling
    ∧ (eventAdd .none [⟨"u1", "default", "web", 315537897600, 0, 0, 0, 0, 0, 0⟩]
          (.event (podEvent "u1" "default" "web" "Pulling" 12))).lookup "u1"
        = some ⟨"u1", "default", "web", 0, 0, 12, 0, 0, 0, 0⟩
    ∧ (0 : Time) ≠ 315537897600 := by
  decide

/-- C8: filterPodOnly returns true exactly when the involved-object kind is
"Pod", and the handler registered by watchPodEvents leaves the store as it was
for an event of any other kind. -/
theorem C8_kind_filter (e : Event) :
    (filterPodOnly (.event e) = true ↔ e.InvolvedObject.Kind = "Pod")
    ∧ (e.InvolvedObject.Kind ≠ "Pod" →
        ∀ fl db, watchPodEvents fl db (.event e) = db) := by
  constructor
  · simp [filterPodOnly]
  · intro hk fl db
    simp [watchPodEvents, filterPodOnly, hk]

/-- C8 at the kind "Node". -/
theorem C8_kind_filter_witness :
    filterPodOnly (.event ⟨⟨"Node", "", "node-1", "n1"⟩, "Scheduled", 7⟩) = false
    ∧ ∀ fl db, watchPodEvents fl db (.event ⟨⟨"Node", "", "node-1", "n1"⟩, "Scheduled", 7⟩) = db :=
  ⟨by decide,
   (C8_kind_filter ⟨⟨"Node", "", "node-1", "n1"⟩, "Scheduled", 7⟩).2 (by decide)⟩

/-- C9, as amended: eventToPod does not look at the UID.  For an event whose
involved-object UID is empty it yields nil exactly when the reason is none of
the seven recognised strings; with a recognised reason it returns a record
with the empty UID that carries the creation timestamp in the milestone of
that reason. -/
theorem C9_empty_uid_classified (e : Event) (hu : e.InvolvedObject.UID = "") :
    (eventToPod e = Option.none ↔ e.Reason ∉ knownReasons)
    ∧ ∀ k : Milestone, e.Reason = k.reason →
        ∃ p, eventToPod e = some p ∧ p.UID = "" ∧ p.milestone k = e.CreationTimestamp := by
  refine ⟨eventToPod_none_iff e, fun k hk => ?_⟩
  obtain ⟨p, hp, hU, _, _, hm, _⟩ := eventToPod_of_reason e k hk
  exact ⟨p, hp, by rw [hU, hu], hm⟩

/-- C9 at a concrete input. -/
theorem C9_empty_uid_classified_witness :
    (eventToPod (podEvent "" "default" "web" "Scheduled" 7) = Option.none
        ↔ (podEvent "" "default" "web" "Scheduled" 7).Reason ∉ knownReasons)
    ∧ ∀ k : Milestone, (podEvent "" "default" "web" "Scheduled" 7).Reason = k.reason →
        ∃ p, eventToPod (podEvent "" "default" "web" "Scheduled" 7) = some p ∧ p.UID = ""
          ∧ p.milestone k = (podEvent "" "default" "web" "Scheduled" 7).CreationTimestamp :=
  C9_empty_uid_classified (podEvent "" "default" "web" "Scheduled" 7) rfl

/-- C9 as stated fails: for a Pod event with empty UID and reason Scheduled,
eventToPod returns a record; eventAdd on the empty store creates a row for
it, and on a store that holds pod "a" it writes the timestamp into the row of
"a". -/
theorem C9_empty_uid_counterexample :
    (podEvent "" "default" "web" "Scheduled" 7).InvolvedObject.UID = ""
    ∧ eventToPod (podEvent "" "default" "web" "Scheduled" 7)
        = some ⟨"", "default", "web", 7, 0, 0, 0, 0, 0, 0⟩
    ∧ eventAdd .none [] (.event (podEvent "" "default" "web" "Scheduled" 7))
        = [⟨"", "default", "web", 7, 0, 0, 0, 0, 0, 0⟩]
    ∧ eventAdd .none [⟨"a", "default", "db", 0, 0, 0, 0, 0, 0, 0⟩]
        (.event (podEvent "" "default" "web" "Scheduled" 7))
        = [⟨"a", "default", "db", 7, 0, 0, 0, 0, 0, 0⟩] := by
  decide

/-- C10: from a store with no record for UID 42, handling in order the Pod
events (42, Scheduled, 10), (42, Pulling, 12), (42, Scheduled, 5) leaves
exactly one record for UID 42, with Scheduled = 10, Pulling = 12 and the five
other milestones zero. -/
theorem C10_scenario (db : DB) (ns1 nm1 ns2 nm2 ns3 nm3 : String)
    (habs : db.lookup "42" = Option.none) :
    ∃ r, (eventAddAll .none db
            [.event (podEvent "42" ns1 nm1 "Scheduled" 10),
             .event (podEvent "42" ns2 nm2 "Pulling" 12),
             .event (podEvent "42" ns3 nm3 "Scheduled" 5)]).filter
            (fun x => x.UID == "42") = [r]
      ∧ r.UID = "42" ∧ r.Scheduled = 10 ∧ r.Pulling = 12
      ∧ r.AllocIPSucceed = 0 ∧ r.Pulled = 0 ∧ r.Created = 0
      ∧ r.Started = 0 ∧ r.Killing = 0 := by
  have hp1 : eventToPod (podEvent "42" ns1 nm1 "Scheduled" 10)
      = some ⟨"42", ns1, nm1, 10, 0, 0, 0, 0, 0, 0⟩ := by
    simp [eventToPod, podEvent]
  have hp2 : eventToPod (podEvent "42" ns2 nm2 "Pulling" 12)
      = some ⟨"42", ns2, nm2, 0, 0, 12, 0, 0, 0, 0⟩ := by
    simp [eventToPod, podEvent]
  have hp3 : eventToPod (podEvent "42" ns3 nm3 "Scheduled" 5)
      = some ⟨"42", ns3, nm3, 5, 0, 0, 0, 0, 0, 0⟩ := by
    simp [eventToPod, podEvent]
  have hne : ("42" : String) ≠ "" := by decide
  have s1 := eventAdd_absent hp1 hne habs
  have l1 : DB.lookup (db ++ [⟨"42", ns1, nm1, 10, 0, 0, 0, 0, 0, 0⟩]) "42"
      = some ⟨"42", ns1, nm1, 10, 0, 0, 0, 0, 0, 0⟩ := by
    rw [lookup_append_of_none _ habs]; rfl
  have s2 := eventAdd_present hp2 hne l1
  rw [map_replace_append _ _ habs] at s2
  simp only [if_true] at s2
  have l2 : DB.lookup (db ++ [mergoMerge (scanRow ⟨"42", ns1, nm1, 10, 0, 0, 0, 0, 0, 0⟩)
      ⟨"42", ns2, nm2, 0, 0, 12, 0, 0, 0, 0⟩]) "42"
      = some (mergoMerge (scanRow ⟨"42", ns1, nm1, 10, 0, 0, 0, 0, 0, 0⟩)
          ⟨"42", ns2, nm2, 0, 0, 12, 0, 0, 0, 0⟩) := by
    rw [lookup_append_of_none _ habs]
    simp [DB.lookup, mergoMerge, mergeString, scanRow]
  have s3 := eventAdd_present hp3 hne l2
  rw [map_replace_append _ _ habs] at s3
  have hU2 : (mergoMerge (scanRow ⟨"42", ns1, nm1, 10, 0, 0, 0, 0, 0, 0⟩)
      ⟨"42", ns2, nm2, 0, 0, 12, 0, 0, 0, 0⟩).UID = "42" := by
    simp [mergoMerge, mergeString, scanRow]
  simp only [hU2, if_true] at s3
  have hdb : db.filter (fun x => x.UID == "42") = [] := by
    rw [List.filter_eq_nil_iff]
    intro x hx
    simpa using lookup_none_ne habs x hx
  have h10 : scanTime 10 = 10 := by decide
  have h12 : scanTime 12 = 12 := by decide
  refine ⟨mergoMerge (scanRow (mergoMerge (scanRow ⟨"42", ns1, nm1, 10, 0, 0, 0, 0, 0, 0⟩)
      ⟨"42", ns2, nm2, 0, 0, 12, 0, 0, 0, 0⟩)) ⟨"42", ns3, nm3, 5, 0, 0, 0, 0, 0, 0⟩, ?_, ?_⟩
  · simp only [eventAddAll, List.foldl_cons, List.foldl_nil]
    rw [s1, s2, s3, List.filter_append, hdb]
    simp [mergoMerge, mergeString, scanRow]
  · simp [mergoMerge, mergeString, timeTransformer, Time.IsZero, scanRow, scanTime_zero,
      h10, h12]

/-- C10 from the empty store. -/
theorem C10_scenario_witness :
    ∃ r, (eventAddAll .none []
            [.event (podEvent "42" "default" "web" "Scheduled" 10),
             .event (podEvent "42" "default" "web" "Pulling" 12),
             .event (podEvent "42" "default" "web" "Scheduled" 5)]).filter
            (fun x => x.UID == "42") = [r]
      ∧ r.UID = "42" ∧ r.Scheduled = 10 ∧ r.Pulling = 12
      ∧ r.AllocIPSucceed = 0 ∧ r.Pulled = 0 ∧ r.Created = 0
      ∧ r.Started = 0 ∧ r.Killing = 0 :=
  C10_scenario [] "default" "web" "default" "web" "default" "web" rfl

/-- C11, the code at the failing input: pod "u1" is stored with Scheduled = 10,
a Pulling event at 12 arrives for it, `db.First` fails with an error other
than record-not-found and `db.Save` succeeds.  The handler saves the merge of
the event into the empty `Pod{UID: "u1"}`: the stored Scheduled goes from 10
to zero. -/
theorem C11_first_error_clears_fields :
    DB.lookup [⟨"u1", "default", "web", 10, 0, 0, 0, 0, 0, 0⟩] "u1"
      = some ⟨"u1", "default", "web", 10, 0, 0, 0, 0, 0, 0⟩
    ∧ eventAdd { first := true, create := false, save := false }
        [⟨"u1", "default", "web", 10, 0, 0, 0, 0, 0, 0⟩]
        (.event (podEvent "u1" "default" "web" "Pulling" 12))
      = [⟨"u1", "default", "web", 0, 0, 12, 0, 0, 0, 0⟩] := by
  decide

/-- C12, as amended: eventAdd is a read followed by a write with no lock and
no transaction around them.  Of the six ways to interleave the steps of two
calls, the two in which one call writes before the other reads end in the
store of that serial order; in the four in which both calls read before either
writes, for two events of the same UID, one update is lost: the store ends as
one of the two calls alone would have left it. -/
theorem C12_interleavings (db : DB) (a b : Event) :
    interleave .none db (Call.start (.event a)) (Call.start (.event b))
        [false, false, true, true]
      = eventAdd .none (eventAdd .none db (.event a)) (.event b)
    ∧ interleave .none db (Call.start (.event a)) (Call.start (.event b))
        [true, true, false, false]
      = eventAdd .none (eventAdd .none db (.event b)) (.event a)
    ∧ (a.InvolvedObject.UID = b.InvolvedObject.UID →
        ∀ s ∈ [[false, true, false, true], [true, false, false, true],
               [false, true, true, false], [true, false, true, false]],
          interleave .none db (Call.start (.event a)) (Call.start (.event b)) s
              = eventAdd .none db (.event a)
          ∨ interleave .none db (Call.start (.event a)) (Call.start (.event b)) s
              = eventAdd .none db (.event b)) := by
  refine ⟨(interleave_serial db _ _).1, (interleave_serial db _ _).2, ?_⟩
  intro hsame s hs
  obtain ⟨h1, h2, h3, h4⟩ := interleave_overlap db (.event a) (.event b)
  simp only [List.mem_cons, List.mem_singleton, List.not_mem_nil, or_false] at hs
  rcases hs with hs | hs | hs | hs <;> subst hs
  · rw [h1]; exact stale_write db a b hsame
  · rw [h2]; exact stale_write db a b hsame
  · rw [h3]; exact (stale_write db b a hsame.symm).symm
  · rw [h4]; exact (stale_write db b a hsame.symm).symm

/-- C12 at a concrete input: Pulling at 12 and Pulled at 13 for the stored pod
"u1", both reads before both writes, the first call writing first. -/
theorem C12_interleavings_witness :
    interleave .none [⟨"u1", "default", "web", 10, 0, 0, 0, 0, 0, 0⟩]
        (Call.start (.event (podEvent "u1" "default" "web" "Pulling" 12)))
        (Call.start (.event (podEvent "u1" "default" "web" "Pulled" 13)))
        [false, true, false, true]
      = eventAdd .none [⟨"u1", "default", "web", 10, 0, 0, 0, 0, 0, 0⟩]
          (.event (podEvent "u1" "default" "web" "Pulling" 12))
    ∨ interleave .none [⟨"u1", "default", "web", 10, 0, 0, 0, 0, 0, 0⟩]
        (Call.start (.event (podEvent "u1" "default" "web" "Pulling" 12)))
        (Call.start (.event (podEvent "u1" "default" "web" "Pulled" 13)))
        [false, true, false, true]
      = eventAdd .none [⟨"u1", "default", "web", 10, 0, 0, 0, 0, 0, 0⟩]
          (.event (podEvent "u1" "default" "web" "Pulled" 13)) :=
  (C12_interleavings [⟨"u1", "default", "web", 10, 0, 0, 0, 0, 0, 0⟩]
    (podEvent "u1" "default" "web" "Pulling" 12)
    (podEvent "u1" "default" "web" "Pulled" 13)).2.2 rfl
    [false, true, false, true] (by decide)

/-- C12 as stated fails: pod "u1" is stored with Scheduled = 10; a call for
Pulling at 12 and a call for Pulled at 13 both read the row, then the first
saves and then the second saves.  The store ends with Pulling unset and
Pulled = 13, while both serial orders end with Pulling = 12 and Pulled = 13. -/
theorem C12_interleavings_counterexample :
    interleave .none [⟨"u1", "default", "web", 10, 0, 0, 0, 0, 0, 0⟩]
        (Call.start (.event (podEvent "u1" "default" "web" "Pulling" 12)))
        (Call.start (.event (podEvent "u1" "default" "web" "Pulled" 13)))
        [false, true, false, true]
      = [⟨"u1", "default", "web", 10, 0, 0, 13, 0, 0, 0⟩]
    ∧ eventAdd .none
        (eventAdd .none [⟨"u1", "default", "web", 10, 0, 0, 0, 0, 0, 0⟩]
          (.event (podEvent "u1" "default" "web" "Pulling" 12)))
        (.event (podEvent "u1" "default" "web" "Pulled" 13))
      = [⟨"u1", "default", "web", 10, 0, 12, 13, 0, 0, 0⟩]
    ∧ eventAdd .none
        (eventAdd .none [⟨"u1", "default", "web", 10, 0, 0, 0, 0, 0, 0⟩]
          (.event (podEvent "u1" "default" "web" "Pulled" 13)))
        (.event (podEvent "u1" "default" "web" "Pulling" 12))
      = [⟨"u1", "default", "web", 10, 0, 12, 13, 0, 0, 0⟩] := by
  decide

/-- C13, as amended: an event with a non-empty UID leaves every stored record
of another UID unchanged in every field; and every event, the empty UID
included, changes the stored UIDs at most by adding its own UID. -/
theorem C13_cross_identity_frame (db : DB) (e : Event) :
    (e.InvolvedObject.UID ≠ "" →
      ∀ u r, u ≠ e.InvolvedObject.UID → db.lookup u = some r →
        (eventAdd .none db (.event e)).lookup u = some r)
    ∧ ((eventAdd .none db (.event e)).map Pod.UID = db.map Pod.UID
      ∨ (eventAdd .none db (.event e)).map Pod.UID
          = db.map Pod.UID ++ [e.InvolvedObject.UID]) :=
  ⟨fun huid u r hu hrec => eventAdd_lookup_other db e u r huid hu hrec,
   eventAdd_keys db e⟩

/-- C13 at a concrete input: a Scheduled event for "u1" next to pod "a". -/
theorem C13_cross_identity_frame_witness :
    (eventAdd .none [⟨"a", "default", "db", 3, 0, 0, 0, 0, 0, 0⟩]
        (.event (podEvent "u1" "default" "web" "Scheduled" 7))).lookup "a"
      = some ⟨"a", "default", "db", 3, 0, 0, 0, 0, 0, 0⟩ :=
  (C13_cross_identity_frame [⟨"a", "default", "db", 3, 0, 0, 0, 0, 0, 0⟩]
    (podEvent "u1" "default" "web" "Scheduled" 7)).1 (by decide) "a"
    ⟨"a", "default", "db", 3, 0, 0, 0, 0, 0, 0⟩ (by decide) rfl

/-- C13 as stated fails for an event with empty UID: on a store that holds
pod "a" with Scheduled unset, a Scheduled event with empty UID at 7 changes
the record of "a", whose UID differs from the event's. -/
theorem C13_cross_identity_frame_counterexample :
    ("a" : String) ≠ (podEvent "" "default" "web" "Scheduled" 7).InvolvedObject.UID
    ∧ DB.lookup [⟨"a", "default", "db", 0, 0, 0, 0, 0, 0, 0⟩] "a"
        = some ⟨"a", "default", "db", 0, 0, 0, 0, 0, 0, 0⟩
    ∧ (eventAdd .none [⟨"a", "default", "db", 0, 0, 0, 0, 0, 0, 0⟩]
          (.event (podEvent "" "default" "web" "Scheduled" 7))).lookup "a"
        = some ⟨"a", "default", "db", 7, 0, 0, 0, 0, 0, 0⟩ := by
  decide

/-- C14, as amended: for every store and every two events for the same
non-empty UID with different recognised reasons and timestamps in the years 0
to 9999 (times the store reads back), handling them with eventAdd in either
order yields records for that UID with the same value in all seven milestone
fields. -/
theorem C14_order_independence (db : DB) (e1 e2 : Event) (k1 k2 : Milestone)
    (hr1 : e1.Reason = k1.reason) (hr2 : e2.Reason = k2.reason) (hk : k1 ≠ k2)
    (hsame : e2.InvolvedObject.UID = e1.InvolvedObject.UID)
    (huid : e1.InvolvedObject.UID ≠ "")
    (ht1 : e1.CreationTimestamp.parses = true)
    (ht2 : e2.CreationTimestamp.parses = true) :
    ∃ ra rb,
      (eventAdd .none (eventAdd .none db (.event e1)) (.event e2)).lookup
          e1.InvolvedObject.UID = some ra
      ∧ (eventAdd .none (eventAdd .none db (.event e2)) (.event e1)).lookup
          e1.InvolvedObject.UID = some rb
      ∧ ∀ k, ra.milestone k = rb.milestone k := by
  obtain ⟨p1, hp1, hU1, _, _, hm1, hz1⟩ := eventToPod_of_reason e1 k1 hr1
  obtain ⟨p2, hp2, hU2, _, _, hm2, hz2⟩ := eventToPod_of_reason e2 k2 hr2
  have hU21 : p2.UID = e1.InvolvedObject.UID := by rw [hU2, hsame]
  have hn1 : p1.UID ≠ "" := by rw [hU1]; exact huid
  have hn2 : p2.UID ≠ "" := by rw [hU21]; exact huid
  have hzero := milestone_zero_of_kinds hk hz1 hz2
  have hq1 := milestone_parses_of_event hm1 hz1 ht1
  have hq2 := milestone_parses_of_event hm2 hz2 ht2
  have a1 := eventAdd_lookup_same db hp1 hn1
  have a2 := eventAdd_lookup_same (eventAdd .none db (.event e1)) hp2 hn2
  have b1 := eventAdd_lookup_same db hp2 hn2
  have b2 := eventAdd_lookup_same (eventAdd .none db (.event e2)) hp1 hn1
  rw [hU1] at a1 b2
  rw [hU21] at a2 b1
  cases hl : db.lookup e1.InvolvedObject.UID with
  | none =>
    rw [hl] at a1 b1
    rw [a1] at a2
    rw [b1] at b2
    refine ⟨_, _, a2, b2, fun k => ?_⟩
    rw [mergoMerge_scan_milestone, mergoMerge_scan_milestone,
      scanTime_of_parses _ (hq1 k), scanTime_of_parses _ (hq2 k)]
    exact timeTransformer_comm_of_zero _ _ (hzero k)
  | some r =>
    rw [hl] at a1 b1
    rw [a1] at a2
    rw [b1] at b2
    refine ⟨_, _, a2, b2, fun k => ?_⟩
    simp only [mergoMerge_scan_milestone]
    rw [scanTime_of_parses _
        (timeTransformer_parses _ _ (scanTime_parses (r.milestone k)) (hq1 k)),
      scanTime_of_parses _
        (timeTransformer_parses _ _ (scanTime_parses (r.milestone k)) (hq2 k))]
    exact (timeTransformer_swap _ _ _ (hzero k).symm).symm

/-- C14 at a concrete input: Scheduled at 10 and Pulling at 12 for "u1". -/
theorem C14_order_independence_witness :
    ∃ ra rb,
      (eventAdd .none
          (eventAdd .none [] (.event (podEvent "u1" "default" "web" "Scheduled" 10)))
          (.event (podEvent "u1" "default" "web" "Pulling" 12))).lookup "u1" = some ra
      ∧ (eventAdd .none
          (eventAdd .none [] (.event (podEvent "u1" "default" "web" "Pulling" 12)))
          (.event (podEvent "u1" "default" "web" "Scheduled" 10))).lookup "u1" = some rb
      ∧ ∀ k, ra.milestone k = rb.milestone k :=
  C14_order_independence [] (podEvent "u1" "default" "web" "Scheduled" 10)
    (podEvent "u1" "default" "web" "Pulling" 12) .Scheduled .Pulling rfl rfl
    (by decide) rfl (by decide) (by decide) (by decide)

/-- C14 as stated fails in two ways.  For the empty UID, from the empty store,
Scheduled at 10 then Pulling at 12 leaves a record with Scheduled = 10 and
Pulling unset, the other order leaves Scheduled unset and Pulling = 12.  For
"u1", from the empty store, Scheduled at 315537897600 (the first second of
year 10000) then Pulling at 12 leaves Scheduled zero, the other order leaves
Scheduled = 315537897600. -/
theorem C14_order_independence_counterexample :
    (eventAdd .none
        (eventAdd .none [] (.event (podEvent "" "default" "web" "Scheduled" 10)))
        (.event (podEvent "" "default" "web" "Pulling" 12))
      = [⟨"", "default", "web", 10, 0, 0, 0, 0, 0, 0⟩]
    ∧ eventAdd .none
        (eventAdd .none [] (.event (podEvent "" "default" "web" "Pulling" 12)))
        (.event (podEvent "" "default" "web" "Scheduled" 10))
      = [⟨"", "default", "web", 0, 0, 12, 0, 0, 0, 0⟩])
    ∧ (eventAdd .none
        (eventAdd .none []
          (.event (podEvent "u1" "default" "web" "Scheduled" 315537897600)))
        (.event (podEvent "u1" "default" "web" "Pulling" 12))
      = [⟨"u1", "default", "web", 0, 0, 12, 0, 0, 0, 0⟩]
    ∧ eventAdd .none
        (eventAdd .none [] (.event (podEvent "u1" "default" "web" "Pulling" 12)))
        (.event (podEvent "u1" "default" "web" "Scheduled" 315537897600))
      = [⟨"u1", "default", "web", 315537897600, 0, 12, 0, 0, 0, 0⟩]) := by
  decide

/-- C15, as amended: for every existing record with a non-empty UID and every
event for that UID with a recognised reason, after eventAdd the UID of the
record is unchanged, a stored namespace (resp. name) that was non-empty keeps
its old value whatever the event carries, and a stored namespace (resp. name)
that was empty takes the value of the event. -/
theorem C15_namespace_name_first_write (db : DB) (e : Event) (k : Milestone) (r : Pod)
    (hr : e.Reason = k.reason) (huid : e.InvolvedObject.UID ≠ "")
    (hrec : db.lookup e.InvolvedObject.UID = some r) :
    ∃ r', (eventAdd .none db (.event e)).lookup e.InvolvedObject.UID = some r'
      ∧ r'.UID = r.UID
      ∧ (r.Namespace ≠ "" → r'.Namespace = r.Namespace)
      ∧ (r.Namespace = "" → r'.Namespace = e.InvolvedObject.Namespace)
      ∧ (r.Name ≠ "" → r'.Name = r.Name)
      ∧ (r.Name = "" → r'.Name = e.InvolvedObject.Name) := by
  obtain ⟨p, hp, hU, hns, hnm, _, _⟩ := eventToPod_of_reason e k hr
  have hstep := eventAdd_lookup_same db hp (by rw [hU]; exact huid)
  rw [hU, hrec] at hstep
  refine ⟨_, hstep, ?_, ?_, ?_, ?_, ?_⟩
  · exact mergoMerge_UID_of_eq r p (by rw [lookup_some_UID hrec, hU])
  · intro h; exact mergeString_of_ne _ _ h
  · intro h
    show mergeString r.Namespace p.Namespace = _
    rw [h, mergeString_empty_left, hns]
  · intro h; exact mergeString_of_ne _ _ h
  · intro h
    show mergeString r.Name p.Name = _
    rw [h, mergeString_empty_left, hnm]

/-- C15 at a concrete input: the stored name "old" stays, the empty stored
namespace becomes "default". -/
theorem C15_namespace_name_first_write_witness :
    ∃ r', (eventAdd .none [⟨"u1", "", "old", 0, 0, 0, 0, 0, 0, 0⟩]
            (.event (podEvent "u1" "default" "web" "Scheduled" 7))).lookup "u1" = some r'
      ∧ r'.UID = "u1"
      ∧ (("" : String) ≠ "" → r'.Namespace = "")
      ∧ (("" : String) = "" → r'.Namespace = "default")
      ∧ (("old" : String) ≠ "" → r'.Name = "old")
      ∧ (("old" : String) = "" → r'.Name = "web") :=
  C15_namespace_name_first_write [⟨"u1", "", "old", 0, 0, 0, 0, 0, 0, 0⟩]
    (podEvent "u1" "default" "web" "Scheduled" 7) .Scheduled
    ⟨"u1", "", "old", 0, 0, 0, 0, 0, 0, 0⟩ rfl (by decide) rfl

/-- C15 as stated fails for a record with empty UID: its namespace and name
are empty, a Scheduled event with empty UID carries "default" and "web", and
after eventAdd the stored namespace and name are still empty. -/
theorem C15_namespace_name_counterexample :
    DB.lookup [⟨"", "", "", 0, 0, 0, 0, 0, 0, 0⟩] ""
      = some ⟨"", "", "", 0, 0, 0, 0, 0, 0, 0⟩
    ∧ (eventAdd .none [⟨"", "", "", 0, 0, 0, 0, 0, 0, 0⟩]
          (.event (podEvent "" "default" "web" "Scheduled" 7))).lookup ""
        = some ⟨"", "", "", 0, 0, 0, 0, 0, 0, 0⟩ := by
  decide

/-- C16, as amended: for every non-empty UID and every milestone kind, if the
stored milestone is unset (no record, or a record with zero in that field) and
an event of that kind arrives with the zero time, the field is still zero
after eventAdd, and an event of the same kind with timestamp t handled next
sets the field to t (for every t, the non-zero ones of the claim included). -/
theorem C16_zero_timestamp_unset (db : DB) (e0 e1 : Event) (k : Milestone)
    (hr0 : e0.Reason = k.reason) (hr1 : e1.Reason = k.reason)
    (hsame : e1.InvolvedObject.UID = e0.InvolvedObject.UID)
    (huid : e0.InvolvedObject.UID ≠ "")
    (ht0 : e0.CreationTimestamp = 0)
    (hunset : ∀ r, db.lookup e0.InvolvedObject.UID = some r → r.milestone k = 0) :
    ∃ r0 r1,
      (eventAdd .none db (.event e0)).lookup e0.InvolvedObject.UID = some r0
      ∧ r0.milestone k = 0
      ∧ (eventAdd .none (eventAdd .none db (.event e0)) (.event e1)).lookup
          e0.InvolvedObject.UID = some r1
      ∧ r1.milestone k = e1.CreationTimestamp := by
  obtain ⟨p0, hp0, hU0, _, _, hm0, _⟩ := eventToPod_of_reason e0 k hr0
  obtain ⟨p1, hp1, hU1, _, _, hm1, _⟩ := eventToPod_of_reason e1 k hr1
  have hU10 : p1.UID = e0.InvolvedObject.UID := by rw [hU1, hsame]
  have s0 := eventAdd_lookup_same db hp0 (by rw [hU0]; exact huid)
  have s1 := eventAdd_lookup_same (eventAdd .none db (.event e0)) hp1
    (by rw [hU10]; exact huid)
  rw [hU0] at s0
  rw [hU10] at s1
  have hstored : ∃ r0, (eventAdd .none db (.event e0)).lookup e0.InvolvedObject.UID
      = some r0 ∧ r0.milestone k = 0 := by
    cases hl : db.lookup e0.InvolvedObject.UID with
    | none =>
      rw [hl] at s0
      exact ⟨p0, s0, by rw [hm0, ht0]⟩
    | some r =>
      rw [hl] at s0
      refine ⟨_, s0, ?_⟩
      rw [mergoMerge_scan_milestone, hunset r hl, scanTime_zero, timeTransformer_zero_left,
        hm0, ht0]
  obtain ⟨r0, hr0', hz0⟩ := hstored
  rw [hr0'] at s1
  refine ⟨r0, _, hr0', hz0, s1, ?_⟩
  rw [mergoMerge_scan_milestone, hz0, scanTime_zero, timeTransformer_zero_left, hm1]

/-- C16 at a concrete input: Scheduled of "u1" stays zero after an event at the
zero time and becomes 7 after the next one. -/
theorem C16_zero_timestamp_unset_witness :
    ∃ r0 r1,
      (eventAdd .none [⟨"u1", "default", "web", 0, 0, 0, 0, 0, 0, 0⟩]
          (.event (podEvent "u1" "default" "web" "Scheduled" 0))).lookup "u1" = some r0
      ∧ r0.milestone .Scheduled = 0
      ∧ (eventAdd .none
          (eventAdd .none [⟨"u1", "default", "web", 0, 0, 0, 0, 0, 0, 0⟩]
            (.event (podEvent "u1" "default" "web" "Scheduled" 0)))
          (.event (podEvent "u1" "default" "web" "Scheduled" 7))).lookup "u1" = some r1
      ∧ r1.milestone .Scheduled = 7 :=
  C16_zero_timestamp_unset [⟨"u1", "default", "web", 0, 0, 0, 0, 0, 0, 0⟩]
    (podEvent "u1" "default" "web" "Scheduled" 0)
    (podEvent "u1" "default" "web" "Scheduled" 7) .Scheduled rfl rfl rfl
    (by decide) rfl (by decide)

/-- C16 as stated fails for the empty UID: a record with empty UID has
Scheduled unset; after a Scheduled event with empty UID at the zero time and
then one at 7, the stored Scheduled is still zero, not 7. -/
theorem C16_zero_timestamp_counterexample :
    DB.lookup [⟨"", "default", "web", 0, 0, 0, 0, 0, 0, 0⟩] ""
      = some ⟨"", "default", "web", 0, 0, 0, 0, 0, 0, 0⟩
    ∧ (eventAdd .none
          (eventAdd .none [⟨"", "default", "web", 0, 0, 0, 0, 0, 0, 0⟩]
            (.event (podEvent "" "default" "web" "Scheduled" 0)))
          (.event (podEvent "" "default" "web" "Scheduled" 7))).lookup ""
        = some ⟨"", "default", "web", 0, 0, 0, 0, 0, 0, 0⟩ := by
  decide

end PodTracker
